import Mathlib

/-
Verification of `src/utils/applescriptEscaping.ts` (OmniFocus MCP item removal).

The file embeds, in order:
  * `escapeForAppleScript` — the escaper: five sequential global
    single-character replacements (backslash, double quote, newline,
    carriage return, tab), modelled pass by pass exactly as the source
    chains `.replace` calls;
  * `generateAppleScript` — the AppleScript generator, with every emitted
    text chunk transcribed verbatim (including indentation and trailing
    whitespace) from the TypeScript template literals;
  * a JSON value model and parser standing in for the platform
    collaborator `JSON.parse` (numbers are carried as their lexemes,
    surrogate pairs in \u escapes are not combined);
  * `removeItem` — the orchestrator, parameterised by the execution
    collaborator (`execAsync`); it returns the outcome together with the
    list of command lines handed to the collaborator so that collaborator
    invocation is observable.

JavaScript `string | null | undefined` inputs are modelled by `JsStrOpt`;
the collaborator's rejection value carries `Option String` for the
`error?.message` read (`none` = no usable message property).
-/

namespace OF

/-- The single-quote character (code 39), written via `Char.ofNat`. -/
def squote : Char := Char.ofNat 39

/-- The single-quote character as a one-character string. -/
def squoteS : String := String.mk [squote]

/-! ## Escaper -/

/-- One global replacement pass: every occurrence of the character `c` is
replaced by the character list `r`, left to right, without rescanning the
replacement.  This is the semantics of `str.replace(/c/g, r)` for a
single-character pattern. -/
def replAll (c : Char) (r : List Char) : List Char → List Char
  | [] => []
  | x :: xs => (if x = c then r else [x]) ++ replAll c r xs

/-- The five replacement passes of `escapeForAppleScript`, in source order:
backslash first, then double quote, newline, carriage return, tab. -/
def escapeChars (l : List Char) : List Char :=
  replAll '\t' ['\\', 't']
    (replAll '\r' ['\\', 'r']
      (replAll '\n' ['\\', 'n']
        (replAll '"' ['\\', '"']
          (replAll '\\' ['\\', '\\'] l))))

/-- The per-character escape table that the five passes jointly implement. -/
def escapeOne (c : Char) : List Char :=
  if c = '\\' then ['\\', '\\']
  else if c = '"' then ['\\', '"']
  else if c = '\n' then ['\\', 'n']
  else if c = '\r' then ['\\', 'r']
  else if c = '\t' then ['\\', 't']
  else [c]

/-- A single left-to-right pass applying `escapeOne` to each character. -/
def escapeOneAll : List Char → List Char
  | [] => []
  | c :: l => escapeOne c ++ escapeOneAll l

/-- A JavaScript `string | null | undefined` value. -/
inductive JsStrOpt where
  | null : JsStrOpt
  | undef : JsStrOpt
  | str : String → JsStrOpt

/-- `escapeForAppleScript(str)`: `if (!str) return ''` (null, undefined and
the empty string are all falsy), otherwise the five replacement passes. -/
def escapeForAppleScript : JsStrOpt → String
  | JsStrOpt.null => ""
  | JsStrOpt.undef => ""
  | JsStrOpt.str s => if s = "" then "" else String.mk (escapeChars s.data)

/-- Modelled from the spec: the value of a two-character escape sequence in
an AppleScript double-quoted string literal (`\"`, `\\`, `\n`, `\r`, `\t`). -/
def decodeEsc (d : Char) : Char :=
  if d = '\\' then '\\'
  else if d = '"' then '"'
  else if d = 'n' then '\n'
  else if d = 'r' then '\r'
  else if d = 't' then '\t'
  else d

/-- Modelled from the spec: reading escaped text back as the contents of an
AppleScript double-quoted string literal (the inverse interpretation the
round-trip property quantifies over). -/
def unescapeAppleScript : List Char → List Char
  | [] => []
  | [c] => [c]
  | c :: d :: rest =>
    if c = '\\' then decodeEsc d :: unescapeAppleScript rest
    else c :: unescapeAppleScript (d :: rest)

/-- Occurrence count of a character in a character list. -/
def countChar (c : Char) : List Char → Nat
  | [] => 0
  | x :: xs => (if x = c then 1 else 0) + countChar c xs

/-- Whether `pat` starts at some position of the character list. -/
def containsSubAux (pat : List Char) : List Char → Bool
  | [] => pat.isPrefixOf ([] : List Char)
  | c :: cs => pat.isPrefixOf (c :: cs) || containsSubAux pat cs

/-- Whether `pat` occurs as a contiguous substring of `s` (character
level). -/
def strContainsSub (s pat : String) : Bool := containsSubAux pat.data s.data

/-! ## Removal parameters and generated script text -/

/-- `itemType: 'task' | 'project'`. -/
inductive ItemType where
  | task : ItemType
  | project : ItemType
deriving DecidableEq

/-- `RemoveItemParams`: optional id, optional name, required item type. -/
structure RemoveItemParams where
  id : JsStrOpt
  name : JsStrOpt
  itemType : ItemType

/-- The canonical invalid-request script returned when neither id nor name
is provided (after escaping). -/
def invalidRequestScript : String :=
  "return \"\x7b\\\"success\\\":false,\\\"error\\\":\\\"Either id or name must be provided\\\"\x7d\""

/-- Leading section of the generated script: Foundation import, the
`escapeForJSON` handler, and the opening of the try / tell scopes. -/
def scriptHeader : String :=
  "use framework \"Foundation\"\n\nproperty NSString : a reference to current application"
    ++ squoteS ++ "s NSString\nproperty NSJSONSerialization : a reference to current application"
    ++ squoteS ++ "s NSJSONSerialization\n\non escapeForJSON(theText)\n  set nsStr to NSString"
    ++ squoteS ++ "s stringWithString:theText\n  set jsonData to NSJSONSerialization"
    ++ squoteS ++ "s dataWithJSONObject:\x7bnsStr\x7d options:0 |error|:(missing value)\n  set jsonArrayString to (NSString"
    ++ squoteS ++ "s alloc()"
    ++ squoteS ++ "s initWithData:jsonData encoding:4) as text\n  return text 3 thru -3 of jsonArrayString\nend escapeForJSON\n\ntry\n  tell application \"OmniFocus\"\n    tell front document\n      -- Find the item to remove\n      set foundItem to missing value\n"

/-- Template text preceding the first interpolation of the id, ending in
the flattened-task id lookup. -/
def idTaskFlatPre : String :=
  "\n        -- Try to find task by ID (search in projects first, then inbox)\n        try\n          set foundItem to first flattened task where id = \""

/-- Template text between the two id interpolations, ending in the
guarded inbox-task id lookup. -/
def idTaskInboxMid : String :=
  "\"\n        end try\n        \n        -- If not found in projects, search in inbox\n        if foundItem is missing value then\n          try\n            set foundItem to first inbox task where id = \""

/-- Template text after the second id interpolation. -/
def idTaskPost : String := "\"\n          end try\n        end if\n"

/-- Chunk emitted when an id is present and the item type is task:
id lookup in the flattened tasks, then, still missing, in the inbox. -/
def idTaskSearch (id : String) : String :=
  idTaskFlatPre ++ id ++ idTaskInboxMid ++ id ++ idTaskPost

/-- Chunk emitted when an id is present and the item type is project. -/
def idProjectSearch (id : String) : String :=
  "\n        -- Try to find project by ID\n        try\n          set foundItem to first flattened project where id = \""
    ++ id
    ++ "\"\n        end try\n"

/-- Chunk emitted when no id but a name is present, item type task. -/
def nameTaskSearch (name : String) : String :=
  "\n        -- Find task by name (search in projects first, then inbox)\n        try\n          set foundItem to first flattened task where name = \""
    ++ name
    ++ "\"\n        end try\n        \n        -- If not found in projects, search in inbox\n        if foundItem is missing value then\n          try\n            set foundItem to first inbox task where name = \""
    ++ name
    ++ "\"\n          end try\n        end if\n"

/-- Chunk emitted when no id but a name is present, item type project. -/
def nameProjectSearch (name : String) : String :=
  "\n        -- Find project by name\n        try\n          set foundItem to first flattened project where name = \""
    ++ name
    ++ "\"\n        end try\n"

/-- Template text preceding the first interpolation of the fallback name:
an `if foundItem is missing value` guard around the flattened-task name
lookup. -/
def nameTaskGuardPre : String :=
  "\n        -- If ID search failed, try to find by name as fallback\n        if foundItem is missing value then\n          try\n            set foundItem to first flattened task where name = \""

/-- Template text between the two fallback-name interpolations: closing
the first guard and opening the guarded inbox-task name lookup. -/
def nameTaskGuardMid : String :=
  "\"\n          end try\n        end if\n        \n        -- If still not found, search in inbox\n        if foundItem is missing value then\n          try\n            set foundItem to first inbox task where name = \""

/-- Template text after the second fallback-name interpolation. -/
def nameTaskGuardPost : String := "\"\n          end try\n        end if\n"

/-- Chunk emitted when both id and name are present, item type task: the
name lookups run only inside `if foundItem is missing value` guards. -/
def nameTaskFallback (name : String) : String :=
  nameTaskGuardPre ++ name ++ nameTaskGuardMid ++ name ++ nameTaskGuardPost

/-- Chunk emitted when both id and name are present, item type project. -/
def nameProjectFallback (name : String) : String :=
  "\n        -- If ID search failed, try to find project by name as fallback\n        if foundItem is missing value then\n          try\n            set foundItem to first flattened project where name = \""
    ++ name
    ++ "\"\n          end try\n        end if\n"

/-- Closing section: deletion of the found item, result payload emission,
not-found payload, scope closing, and the outer error handler. -/
def scriptFooter : String :=
  "\n        -- If we found the item, remove it\n        if foundItem is not missing value then\n          set itemName to name of foundItem\n          set itemId to id of foundItem as string\n\n          -- Delete the item\n          delete foundItem\n\n          -- Return success (escape name for JSON)\n          return \"\x7b\\\"success\\\":true,\\\"id\\\":\\\"\" & itemId & \"\\\",\\\"name\\\":\\\"\" & my escapeForJSON(itemName) & \"\\\"\x7d\"\n        else\n          -- Item not found\n          return \"\x7b\\\"success\\\":false,\\\"error\\\":\\\"Item not found\\\"\x7d\"\n        end if\n      end tell\n    end tell\n  on error errorMessage\n    return \"\x7b\\\"success\\\":false,\\\"error\\\":\\\"\" & my escapeForJSON(errorMessage) & \"\\\"\x7d\"\n  end try\n  "

/-- `generateAppleScript(params)`: escape id and name, short-circuit to the
canonical invalid-request script when both are empty, otherwise assemble
header, id-search chunk (`if (id)`), name-search chunk (`if (!id && name)`
/ `else if (id && name)`), and footer, in source order. -/
def generateAppleScript (params : RemoveItemParams) : String :=
  if escapeForAppleScript params.id = "" ∧ escapeForAppleScript params.name = "" then
    invalidRequestScript
  else
    scriptHeader
      ++ (if escapeForAppleScript params.id = "" then ""
          else
            match params.itemType with
            | ItemType.task => idTaskSearch (escapeForAppleScript params.id)
            | ItemType.project => idProjectSearch (escapeForAppleScript params.id))
      ++ (if escapeForAppleScript params.id = "" ∧ escapeForAppleScript params.name ≠ "" then
            match params.itemType with
            | ItemType.task => nameTaskSearch (escapeForAppleScript params.name)
            | ItemType.project => nameProjectSearch (escapeForAppleScript params.name)
          else if escapeForAppleScript params.id ≠ "" ∧ escapeForAppleScript params.name ≠ "" then
            match params.itemType with
            | ItemType.task => nameTaskFallback (escapeForAppleScript params.name)
            | ItemType.project => nameProjectFallback (escapeForAppleScript params.name)
          else "")
      ++ scriptFooter

/-! ## JSON model (for the platform collaborator `JSON.parse`) -/

/-- JSON values; numbers are carried as their source lexemes. -/
inductive Json where
  | null : Json
  | bool : Bool → Json
  | num : String → Json
  | str : String → Json
  | arr : List Json → Json
  | obj : List (String × Json) → Json

/-- JSON insignificant whitespace. -/
def jsonWs (c : Char) : Bool := c = ' ' || c = '\t' || c = '\n' || c = '\r'

/-- Drop leading JSON whitespace. -/
def skipWs : List Char → List Char
  | [] => []
  | c :: cs => if jsonWs c then skipWs cs else c :: cs

/-- Hexadecimal digit value. -/
def hexVal (c : Char) : Option Nat :=
  if '0' ≤ c ∧ c ≤ '9' then some (c.toNat - 48)
  else if 'a' ≤ c ∧ c ≤ 'f' then some (c.toNat - 87)
  else if 'A' ≤ c ∧ c ≤ 'F' then some (c.toNat - 55)
  else none

/-- Single-character JSON string escapes. -/
def jsonEscChar (d : Char) : Option Char :=
  if d = '"' then some '"'
  else if d = '\\' then some '\\'
  else if d = '/' then some '/'
  else if d = 'b' then some (Char.ofNat 8)
  else if d = 'f' then some (Char.ofNat 12)
  else if d = 'n' then some '\n'
  else if d = 'r' then some '\r'
  else if d = 't' then some '\t'
  else none

/-- Body of a JSON string after the opening quote: characters up to the
closing quote, decoding escapes; raw control characters are rejected. -/
def parseStringChars : Nat → List Char → Option (List Char × List Char)
  | 0, _ => none
  | _ + 1, [] => none
  | fuel + 1, c :: cs =>
    if c = '"' then some ([], cs)
    else if c = '\\' then
      match cs with
      | [] => none
      | 'u' :: h1 :: h2 :: h3 :: h4 :: cs2 =>
        (match hexVal h1, hexVal h2, hexVal h3, hexVal h4 with
         | some a, some b, some x, some y =>
           (match parseStringChars fuel cs2 with
            | some (tail, rest) =>
              some (Char.ofNat (((a * 16 + b) * 16 + x) * 16 + y) :: tail, rest)
            | none => none)
         | _, _, _, _ => none)
      | d :: cs2 =>
        (match jsonEscChar d with
         | some e =>
           (match parseStringChars fuel cs2 with
            | some (tail, rest) => some (e :: tail, rest)
            | none => none)
         | none => none)
    else if c.toNat < 32 then none
    else
      match parseStringChars fuel cs with
      | some (tail, rest) => some (c :: tail, rest)
      | none => none

/-- Exponent part of a JSON number lexeme (or nothing). -/
def numExpPart (acc : List Char) (l : List Char) : Option (List Char × List Char) :=
  match l with
  | c :: rest =>
    if c = 'e' ∨ c = 'E' then
      match rest with
      | s :: r2 =>
        if s = '+' ∨ s = '-' then
          match r2.span (fun d => d.isDigit) with
          | ([], _) => none
          | (ds, r3) => some (acc ++ c :: s :: ds, r3)
        else
          match rest.span (fun d => d.isDigit) with
          | ([], _) => none
          | (ds, r3) => some (acc ++ c :: ds, r3)
      | [] => none
    else some (acc, l)
  | [] => some (acc, l)

/-- Fraction part of a JSON number lexeme (or nothing), then exponent. -/
def numFracPart (acc : List Char) (l : List Char) : Option (List Char × List Char) :=
  match l with
  | '.' :: rest =>
    (match rest.span (fun d => d.isDigit) with
     | ([], _) => none
     | (ds, r2) => numExpPart (acc ++ '.' :: ds) r2)
  | _ => numExpPart acc l

/-- JSON number lexeme: optional minus, integer part, fraction, exponent. -/
def parseNumberLex (l : List Char) : Option (List Char × List Char) :=
  match l with
  | '-' :: rest =>
    (match rest with
     | '0' :: r2 => numFracPart ['-', '0'] r2
     | c :: _ =>
       if c.isDigit then
         match rest.span (fun d => d.isDigit) with
         | (ds, r2) => numFracPart ('-' :: ds) r2
       else none
     | [] => none)
  | '0' :: r2 => numFracPart ['0'] r2
  | c :: rest =>
    if c.isDigit then
      match (c :: rest).span (fun d => d.isDigit) with
      | (ds, r2) => numFracPart ds r2
    else none
  | [] => none

mutual

/-- A JSON value, with leading whitespace allowed; fuelled recursion. -/
def parseValue : Nat → List Char → Option (Json × List Char)
  | 0, _ => none
  | fuel + 1, l =>
    match skipWs l with
    | [] => none
    | '"' :: rest =>
      (match parseStringChars (fuel + 1) rest with
       | some (cs, r) => some (Json.str (String.mk cs), r)
       | none => none)
    | 't' :: 'r' :: 'u' :: 'e' :: r => some (Json.bool true, r)
    | 'f' :: 'a' :: 'l' :: 's' :: 'e' :: r => some (Json.bool false, r)
    | 'n' :: 'u' :: 'l' :: 'l' :: r => some (Json.null, r)
    | '{' :: rest =>
      (match skipWs rest with
       | '}' :: r => some (Json.obj [], r)
       | l2 =>
         match parseMembers fuel l2 with
         | some (fs, r) => some (Json.obj fs, r)
         | none => none)
    | '[' :: rest =>
      (match skipWs rest with
       | ']' :: r => some (Json.arr [], r)
       | l2 =>
         match parseElems fuel l2 with
         | some (xs, r) => some (Json.arr xs, r)
         | none => none)
    | c :: rest =>
      if c = '-' ∨ c.isDigit then
        match parseNumberLex (c :: rest) with
        | some (ds, r) => some (Json.num (String.mk ds), r)
        | none => none
      else none

/-- Members of a JSON object, positioned at the first key's quote. -/
def parseMembers : Nat → List Char → Option (List (String × Json) × List Char)
  | 0, _ => none
  | fuel + 1, l =>
    match l with
    | '"' :: r =>
      (match parseStringChars (fuel + 1) r with
       | some (key, r2) =>
         (match skipWs r2 with
          | ':' :: r3 =>
            (match parseValue fuel r3 with
             | some (v, r4) =>
               (match skipWs r4 with
                | ',' :: r5 =>
                  (match parseMembers fuel (skipWs r5) with
                   | some (fs, r6) => some ((String.mk key, v) :: fs, r6)
                   | none => none)
                | '}' :: r5 => some ([(String.mk key, v)], r5)
                | _ => none)
             | none => none)
          | _ => none)
       | none => none)
    | _ => none

/-- Elements of a JSON array, positioned at the first element. -/
def parseElems : Nat → List Char → Option (List Json × List Char)
  | 0, _ => none
  | fuel + 1, l =>
    match parseValue fuel l with
    | some (v, r) =>
      (match skipWs r with
       | ',' :: r2 =>
         (match parseElems fuel r2 with
          | some (xs, r3) => some (v :: xs, r3)
          | none => none)
       | ']' :: r2 => some ([v], r2)
       | _ => none)
    | none => none

end

/-- `JSON.parse(stdout)` model: one JSON value with surrounding whitespace,
`none` on any syntax error.  The fuel bounds recursion depth and is ample
for every input of the given length. -/
def jsonParse (s : String) : Option Json :=
  match parseValue (4 * s.data.length + 16) s.data with
  | some (j, rest) => if skipWs rest = [] then some j else none
  | none => none

/-- JavaScript object member access with duplicate keys resolved last-wins,
as `JSON.parse` builds objects. -/
def lookupField (fs : List (String × Json)) (k : String) : Option Json :=
  fs.foldl (fun acc p => if p.1 = k then some p.2 else acc) none

/-- `result.k` for a parsed JSON value: fields of objects; `none`
(undefined) on every non-object except `null`, whose member access throws
and is handled at the call site. -/
def getField : Json → String → Option Json
  | Json.obj fs, k => lookupField fs k
  | _, _ => none

/-! ## Execution and result mapping -/

/-- The object literal `removeItem` returns: each property holds the raw
JavaScript value assigned to it (`none` = undefined / absent). -/
structure RemovalOutcome where
  success : Option Json
  id : Option Json
  name : Option Json
  error : Option Json

/-- The inner `try { JSON.parse ... } catch` of `removeItem`: on parse
success the four fields are copied verbatim; member access on `null`
throws and lands in the same catch; on failure the outcome carries
`"Failed to parse result: " + stdout`. -/
def parseResult (stdout : String) : RemovalOutcome :=
  match jsonParse stdout with
  | none =>
    ⟨some (Json.bool false), none, none,
     some (Json.str ("Failed to parse result: " ++ stdout))⟩
  | some Json.null =>
    ⟨some (Json.bool false), none, none,
     some (Json.str ("Failed to parse result: " ++ stdout))⟩
  | some j => ⟨getField j "success", getField j "id", getField j "name", getField j "error"⟩

/-- Normal completion of the execution collaborator. -/
structure ExecOk where
  stdout : String
  stderr : String

/-- `error?.message || "Unknown error in removeItem"`: the fallback fires
when the rejection carries no message property or an empty (falsy) one. -/
def errMessageOr (m : Option String) : String :=
  match m with
  | some s => if s = "" then "Unknown error in removeItem" else s
  | none => "Unknown error in removeItem"

/-- The command line handed to the collaborator:
`osascript -e '<script>'`, the script enclosed in shell single quotes. -/
def osascriptCmd (script : String) : String :=
  "osascript -e " ++ squoteS ++ script ++ squoteS

/-- `removeItem(params)`: generate the script, hand the `osascript`
command line to the execution collaborator, parse its stdout; a
collaborator rejection is caught and mapped through `errMessageOr`.
The second component records every command line passed to the
collaborator. -/
def removeItem (params : RemoveItemParams)
    (exec : String → Except (Option String) ExecOk) :
    RemovalOutcome × List String :=
  match exec (osascriptCmd (generateAppleScript params)) with
  | Except.ok r => (parseResult r.stdout, [osascriptCmd (generateAppleScript params)])
  | Except.error m =>
    (⟨some (Json.bool false), none, none, some (Json.str (errMessageOr m))⟩,
     [osascriptCmd (generateAppleScript params)])

/-- The exactly-one-of outcome invariant claimed by the spec: success with
id and name populated (strings) and no error, or failure with an error
string and neither id nor name. -/
def outcomeInvariant (o : RemovalOutcome) : Prop :=
  (o.success = some (Json.bool true) →
    (∃ s, o.id = some (Json.str s)) ∧ (∃ s, o.name = some (Json.str s)) ∧ o.error = none)
  ∧ (o.success = some (Json.bool false) →
    (∃ s, o.error = some (Json.str s)) ∧ o.id = none ∧ o.name = none)

/-! ## Concrete collaborators used by witnesses and counterexamples -/

/-- The stdout a faithful collaborator produces for the canonical
invalid-request script. -/
def canonicalInvalidStdout : String :=
  "\x7b\"success\":false,\"error\":\"Either id or name must be provided\"\x7d"

/-- Collaborator that executes the canonical invalid-request script
faithfully. -/
def execCanonicalInvalid : String → Except (Option String) ExecOk :=
  fun _ => Except.ok ⟨canonicalInvalidStdout, ""⟩

/-- Collaborator whose stdout is the JSON object with only a success
field. -/
def execSuccessFalseOnly : String → Except (Option String) ExecOk :=
  fun _ => Except.ok ⟨"\x7b\"success\":false\x7d", ""⟩

/-- Collaborator whose stdout is not JSON. -/
def execNotJson : String → Except (Option String) ExecOk :=
  fun _ => Except.ok ⟨"Error: syntax error", ""⟩

/-- Collaborator whose stdout is a well-shaped success payload. -/
def execParsedObj : String → Except (Option String) ExecOk :=
  fun _ => Except.ok ⟨"\x7b\"success\":true,\"id\":\"abc123\",\"name\":\"Q3 Planning\"\x7d", ""⟩

/-- The member list `jsonParse` produces for `execParsedObj`'s stdout. -/
def parsedObjFields : List (String × Json) :=
  [("success", Json.bool true), ("id", Json.str "abc123"), ("name", Json.str "Q3 Planning")]

/-- Collaborator whose invocation itself fails, with a message. -/
def execSpawnFail : String → Except (Option String) ExecOk :=
  fun _ => Except.error (some "spawn osascript ENOENT")

/-- Collaborator returning a not-found payload together with noisy
stderr. -/
def execStderrNoisy : String → Except (Option String) ExecOk :=
  fun _ => Except.ok ⟨"\x7b\"success\":false,\"error\":\"Item not found\"\x7d", "warning: deprecated call\n"⟩

/-- Collaborator returning the same stdout as `execStderrNoisy` with empty
stderr. -/
def execStderrQuiet : String → Except (Option String) ExecOk :=
  fun _ => Except.ok ⟨"\x7b\"success\":false,\"error\":\"Item not found\"\x7d", ""⟩

/-! ## Helper lemmas -/

theorem data_append (a b : String) : (a ++ b).data = a.data ++ b.data := by
  cases a
  cases b
  rfl

theorem mk_data (s : String) : String.mk s.data = s := by
  cases s
  rfl

theorem eq_empty_of_data_eq_nil (s : String) (h : s.data = []) : s = "" := by
  cases s
  simp only at h
  subst h
  rfl

theorem replAll_append (c : Char) (r : List Char) (a b : List Char) :
    replAll c r (a ++ b) = replAll c r a ++ replAll c r b := by
  induction a with
  | nil => rfl
  | cons x xs ih => simp [replAll, ih, List.append_assoc]

theorem escapeChars_append (a b : List Char) :
    escapeChars (a ++ b) = escapeChars a ++ escapeChars b := by
  simp [escapeChars, replAll_append]

theorem escapeChars_single (c : Char) : escapeChars [c] = escapeOne c := by
  by_cases h1 : c = '\\'
  · subst h1; decide
  by_cases h2 : c = '"'
  · subst h2; decide
  by_cases h3 : c = '\n'
  · subst h3; decide
  by_cases h4 : c = '\r'
  · subst h4; decide
  by_cases h5 : c = '\t'
  · subst h5; decide
  simp [escapeChars, replAll, escapeOne, h1, h2, h3, h4, h5]

theorem escapeChars_eq (l : List Char) : escapeChars l = escapeOneAll l := by
  induction l with
  | nil => rfl
  | cons c cs ih =>
    have : c :: cs = [c] ++ cs := rfl
    rw [this, escapeChars_append, escapeChars_single, ih]
    rfl

theorem escapeOne_ne_nil (c : Char) : escapeOne c ≠ [] := by
  unfold escapeOne
  repeat' split
  all_goals simp

theorem escapeOneAll_ne_nil (l : List Char) (h : l ≠ []) : escapeOneAll l ≠ [] := by
  cases l with
  | nil => exact absurd rfl h
  | cons c cs =>
    simp only [escapeOneAll, ne_eq, List.append_eq_nil]
    intro hc
    exact escapeOne_ne_nil c hc.1

theorem escapeForAppleScript_str (s : String) (h : s ≠ "") :
    escapeForAppleScript (JsStrOpt.str s) = String.mk (escapeChars s.data) := by
  simp [escapeForAppleScript, h]

theorem escapeForAppleScript_str_ne_empty (s : String) (h : s ≠ "") :
    escapeForAppleScript (JsStrOpt.str s) ≠ "" := by
  rw [escapeForAppleScript_str s h]
  intro habs
  have hd : escapeChars s.data = [] := by
    have := congrArg String.data habs
    simpa using this
  have hl : s.data ≠ [] := fun hn => h (eq_empty_of_data_eq_nil s hn)
  rw [escapeChars_eq] at hd
  exact escapeOneAll_ne_nil s.data hl hd

theorem unescape_escapeOneAll : ∀ l : List Char, unescapeAppleScript (escapeOneAll l) = l
  | [] => rfl
  | c :: l => by
    by_cases h1 : c = '\\'
    · subst h1
      show unescapeAppleScript ('\\' :: '\\' :: escapeOneAll l) = _
      simp [unescapeAppleScript, decodeEsc, unescape_escapeOneAll l]
    by_cases h2 : c = '"'
    · subst h2
      show unescapeAppleScript ('\\' :: '"' :: escapeOneAll l) = _
      simp [unescapeAppleScript, decodeEsc, unescape_escapeOneAll l]
    by_cases h3 : c = '\n'
    · subst h3
      show unescapeAppleScript ('\\' :: 'n' :: escapeOneAll l) = _
      simp [unescapeAppleScript, decodeEsc, unescape_escapeOneAll l]
    by_cases h4 : c = '\r'
    · subst h4
      show unescapeAppleScript ('\\' :: 'r' :: escapeOneAll l) = _
      simp [unescapeAppleScript, decodeEsc, unescape_escapeOneAll l]
    by_cases h5 : c = '\t'
    · subst h5
      show unescapeAppleScript ('\\' :: 't' :: escapeOneAll l) = _
      simp [unescapeAppleScript, decodeEsc, unescape_escapeOneAll l]
    · have hone : escapeOne c = [c] := by simp [escapeOne, h1, h2, h3, h4, h5]
      show unescapeAppleScript (escapeOne c ++ escapeOneAll l) = _
      rw [hone]
      cases hl : l with
      | nil => simp [escapeOneAll, unescapeAppleScript]
      | cons b l2 =>
        have hbne := escapeOne_ne_nil b
        cases hE : escapeOne b with
        | nil => exact absurd hE hbne
        | cons d t =>
          have : escapeOneAll (b :: l2) = d :: (t ++ escapeOneAll l2) := by
            simp [escapeOneAll, hE]
          rw [this]
          show unescapeAppleScript (c :: d :: (t ++ escapeOneAll l2)) = _
          rw [unescapeAppleScript]
          rw [if_neg h1]
          have hrec : unescapeAppleScript (d :: (t ++ escapeOneAll l2)) = b :: l2 := by
            rw [← this]
            exact unescape_escapeOneAll (b :: l2)
          rw [hrec]

theorem countChar_append (c : Char) (a b : List Char) :
    countChar c (a ++ b) = countChar c a + countChar c b := by
  induction a with
  | nil => simp [countChar]
  | cons x xs ih => simp [countChar, ih, Nat.add_assoc]

theorem countChar_escapeOne_squote (c : Char) :
    countChar squote (escapeOne c) = countChar squote [c] := by
  by_cases h1 : c = '\\'
  · subst h1; decide
  by_cases h2 : c = '"'
  · subst h2; decide
  by_cases h3 : c = '\n'
  · subst h3; decide
  by_cases h4 : c = '\r'
  · subst h4; decide
  by_cases h5 : c = '\t'
  · subst h5; decide
  simp [escapeOne, h1, h2, h3, h4, h5]

theorem countChar_escapeOneAll_squote (l : List Char) :
    countChar squote (escapeOneAll l) = countChar squote l := by
  induction l with
  | nil => rfl
  | cons c cs ih =>
    show countChar squote (escapeOne c ++ escapeOneAll cs) = _
    rw [countChar_append, countChar_escapeOne_squote, ih]
    show countChar squote [c] + countChar squote cs
      = (if c = squote then 1 else 0) + countChar squote cs
    simp [countChar]

theorem mem_of_countChar_pos (c : Char) (l : List Char) (h : 0 < countChar c l) : c ∈ l := by
  induction l with
  | nil => simp [countChar] at h
  | cons x xs ih =>
    by_cases hx : x = c
    · subst hx; exact List.mem_cons_self x xs
    · simp only [countChar, hx, if_false, Nat.zero_add] at h
      exact List.mem_cons_of_mem x (ih h)

theorem countChar_pos_of_mem (c : Char) (l : List Char) (h : c ∈ l) : 0 < countChar c l := by
  induction l with
  | nil => exact absurd h (List.not_mem_nil c)
  | cons x xs ih =>
    rcases List.mem_cons.mp h with h1 | h2
    · subst h1; simp [countChar]
    · have := ih h2
      simp only [countChar]
      omega

/-! ## Claim theorems -/

theorem generateAppleScript_id_only_task (idv : JsStrOpt)
    (h : escapeForAppleScript idv ≠ "") :
    generateAppleScript ⟨idv, JsStrOpt.undef, ItemType.task⟩
      = scriptHeader ++ idTaskSearch (escapeForAppleScript idv) ++ "" ++ scriptFooter := by
  have hu : escapeForAppleScript JsStrOpt.undef = "" := rfl
  have h1 : ¬ (escapeForAppleScript idv = "" ∧ escapeForAppleScript JsStrOpt.undef = "") :=
    fun hc => h hc.1
  have h3 : ¬ (escapeForAppleScript idv = "" ∧ escapeForAppleScript JsStrOpt.undef ≠ "") :=
    fun hc => h hc.1
  have h4 : ¬ (escapeForAppleScript idv ≠ "" ∧ escapeForAppleScript JsStrOpt.undef ≠ "") :=
    fun hc => hc.2 hu
  simp only [generateAppleScript]
  rw [if_neg h1, if_neg h, if_neg h3, if_neg h4]

theorem generateAppleScript_both_task (idv namev : JsStrOpt)
    (hid : escapeForAppleScript idv ≠ "") (hname : escapeForAppleScript namev ≠ "") :
    generateAppleScript ⟨idv, namev, ItemType.task⟩
      = scriptHeader ++ idTaskSearch (escapeForAppleScript idv)
          ++ nameTaskFallback (escapeForAppleScript namev) ++ scriptFooter := by
  have h1 : ¬ (escapeForAppleScript idv = "" ∧ escapeForAppleScript namev = "") :=
    fun hc => hid hc.1
  have h3 : ¬ (escapeForAppleScript idv = "" ∧ escapeForAppleScript namev ≠ "") :=
    fun hc => hid hc.1
  simp only [generateAppleScript]
  rw [if_neg h1, if_neg hid, if_neg h3, if_pos ⟨hid, hname⟩]

theorem removeItem_fst_ok (params : RemoveItemParams)
    (exec : String → Except (Option String) ExecOk) (r : ExecOk)
    (h : exec (osascriptCmd (generateAppleScript params)) = Except.ok r) :
    (removeItem params exec).1 = parseResult r.stdout := by
  unfold removeItem
  rw [h]

theorem removeItem_fst_error (params : RemoveItemParams)
    (exec : String → Except (Option String) ExecOk) (m : Option String)
    (h : exec (osascriptCmd (generateAppleScript params)) = Except.error m) :
    (removeItem params exec).1
      = ⟨some (Json.bool false), none, none, some (Json.str (errMessageOr m))⟩ := by
  unfold removeItem
  rw [h]

theorem parseResult_eq_none (stdout : String) (h : jsonParse stdout = none) :
    parseResult stdout
      = ⟨some (Json.bool false), none, none,
         some (Json.str ("Failed to parse result: " ++ stdout))⟩ := by
  unfold parseResult
  rw [h]

theorem parseResult_eq_null (stdout : String) (h : jsonParse stdout = some Json.null) :
    parseResult stdout
      = ⟨some (Json.bool false), none, none,
         some (Json.str ("Failed to parse result: " ++ stdout))⟩ := by
  unfold parseResult
  rw [h]

/-- C9: `escapeForAppleScript` is a total function of the embedding (hence
never fails), and maps null, undefined and the empty string all to the
empty string. -/
theorem escapeForAppleScript_absent_empty :
    escapeForAppleScript JsStrOpt.null = ""
    ∧ escapeForAppleScript JsStrOpt.undef = ""
    ∧ escapeForAppleScript (JsStrOpt.str "") = "" :=
  ⟨rfl, rfl, by simp [escapeForAppleScript]⟩

/-- C10: escaping the two-character input backslash-quote yields the
four-character output backslash-backslash-backslash-quote, and the five
sequential replacement passes coincide with a single left-to-right
per-character pass — so the quote substitution never re-escapes a
backslash that the first substitution inserted. -/
theorem escapeForAppleScript_backslash_first :
    escapeForAppleScript (JsStrOpt.str "\\\"") = "\\\\\\\""
    ∧ ∀ l : List Char, escapeChars l = escapeOneAll l :=
  ⟨by decide, escapeChars_eq⟩

/-- C3: for every input containing a backslash, double quote, newline,
carriage return or tab, reading the escaper's output back as the contents
of an AppleScript double-quoted string literal yields exactly the original
input. -/
theorem escapeForAppleScript_roundtrip (s : String)
    (h : ∃ c ∈ s.data, c = '\\' ∨ c = '"' ∨ c = '\n' ∨ c = '\r' ∨ c = '\t') :
    String.mk (unescapeAppleScript (escapeForAppleScript (JsStrOpt.str s)).data) = s := by
  have hne : s ≠ "" := by
    rintro rfl
    obtain ⟨c, hc, -⟩ := h
    exact List.not_mem_nil c hc
  rw [escapeForAppleScript_str s hne]
  show String.mk (unescapeAppleScript (escapeChars s.data)) = s
  rw [escapeChars_eq, unescape_escapeOneAll]

/-- Witness for C3 at the concrete input a-quote-b-backslash-c-newline-d. -/
theorem escapeForAppleScript_roundtrip_witness :
    (∃ c ∈ ("a\"b\\c\nd" : String).data,
      c = '\\' ∨ c = '"' ∨ c = '\n' ∨ c = '\r' ∨ c = '\t')
    ∧ String.mk (unescapeAppleScript
        (escapeForAppleScript (JsStrOpt.str "a\"b\\c\nd")).data) = "a\"b\\c\nd" :=
  ⟨by decide, escapeForAppleScript_roundtrip "a\"b\\c\nd" (by decide)⟩

/-- C8: the escaper leaves single quotes completely unchanged (membership
and occurrence count are preserved), so a single quote in an id reaches
the generated script unescaped, while `removeItem` wraps exactly that
script in shell single quotes on the `osascript` command line. -/
theorem escapeForAppleScript_single_quote_unchanged (s : String) (h : squote ∈ s.data) :
    squote ∈ (escapeForAppleScript (JsStrOpt.str s)).data
    ∧ countChar squote (escapeForAppleScript (JsStrOpt.str s)).data = countChar squote s.data
    ∧ squote ∈ (generateAppleScript ⟨JsStrOpt.str s, JsStrOpt.undef, ItemType.task⟩).data
    ∧ ∀ (params : RemoveItemParams) (exec : String → Except (Option String) ExecOk),
        (removeItem params exec).2
          = ["osascript -e " ++ String.mk [squote] ++ generateAppleScript params
              ++ String.mk [squote]] := by
  have hne : s ≠ "" := by
    rintro rfl
    exact List.not_mem_nil squote h
  have hesc : escapeForAppleScript (JsStrOpt.str s) = String.mk (escapeChars s.data) :=
    escapeForAppleScript_str s hne
  have hcount : countChar squote (escapeChars s.data) = countChar squote s.data := by
    rw [escapeChars_eq]
    exact countChar_escapeOneAll_squote s.data
  have hmem : squote ∈ escapeChars s.data := by
    apply mem_of_countChar_pos
    rw [hcount]
    exact countChar_pos_of_mem squote s.data h
  refine ⟨?_, ?_, ?_, ?_⟩
  · rw [hesc]
    exact hmem
  · rw [hesc]
    exact hcount
  · have hid : escapeForAppleScript (JsStrOpt.str s) ≠ "" :=
      escapeForAppleScript_str_ne_empty s hne
    rw [generateAppleScript_id_only_task (JsStrOpt.str s) hid]
    have hmemE : squote ∈ (escapeForAppleScript (JsStrOpt.str s)).data := by
      rw [hesc]
      exact hmem
    simp only [idTaskSearch, data_append, List.mem_append]
    tauto
  · intro params exec
    unfold removeItem
    cases exec (osascriptCmd (generateAppleScript params)) <;> rfl

/-- Witness for C8 at a concrete id containing a single quote. -/
theorem escapeForAppleScript_single_quote_unchanged_witness :
    squote ∈ (("it" ++ squoteS ++ "s" : String)).data
    ∧ (squote ∈ (escapeForAppleScript (JsStrOpt.str ("it" ++ squoteS ++ "s"))).data
       ∧ countChar squote (escapeForAppleScript (JsStrOpt.str ("it" ++ squoteS ++ "s"))).data
           = countChar squote (("it" ++ squoteS ++ "s" : String)).data
       ∧ squote ∈ (generateAppleScript
           ⟨JsStrOpt.str ("it" ++ squoteS ++ "s"), JsStrOpt.undef, ItemType.task⟩).data
       ∧ ∀ (params : RemoveItemParams) (exec : String → Except (Option String) ExecOk),
           (removeItem params exec).2
             = ["osascript -e " ++ String.mk [squote] ++ generateAppleScript params
                 ++ String.mk [squote]]) :=
  ⟨by decide, escapeForAppleScript_single_quote_unchanged ("it" ++ squoteS ++ "s") (by decide)⟩

set_option maxRecDepth 16384 in
/-- C4: when both id and name are provided (item type task), the generated
script is header, then the id-search chunk (flattened-task id lookup, then
guarded inbox id lookup), then the name-fallback chunk in which each name
lookup sits inside an `if foundItem is missing value then` guard, then the
footer; the constant script text before the name-fallback chunk contains
no name lookup, and the id lookups appear in the id-search chunk in
flattened-then-inbox order. -/
theorem generateAppleScript_id_before_name (idS nameS : String)
    (hid : idS ≠ "") (hname : nameS ≠ "") :
    ∃ e en : String,
      e = escapeForAppleScript (JsStrOpt.str idS)
      ∧ en = escapeForAppleScript (JsStrOpt.str nameS)
      ∧ generateAppleScript ⟨JsStrOpt.str idS, JsStrOpt.str nameS, ItemType.task⟩
          = scriptHeader
              ++ (idTaskFlatPre ++ e ++ idTaskInboxMid ++ e ++ idTaskPost)
              ++ (nameTaskGuardPre ++ en ++ nameTaskGuardMid ++ en ++ nameTaskGuardPost)
              ++ scriptFooter
      ∧ strContainsSub (scriptHeader ++ idTaskFlatPre) "where name" = false
      ∧ strContainsSub idTaskInboxMid "where name" = false
      ∧ strContainsSub idTaskPost "where name" = false
      ∧ strContainsSub idTaskFlatPre "first flattened task where id = " = true
      ∧ strContainsSub idTaskInboxMid "first inbox task where id = " = true
      ∧ strContainsSub nameTaskGuardPre "if foundItem is missing value then" = true
      ∧ strContainsSub nameTaskGuardMid "if foundItem is missing value then" = true := by
  refine ⟨_, _, rfl, rfl, ?_, by decide, by decide, by decide, by decide, by decide,
    by decide, by decide⟩
  have hid2 := escapeForAppleScript_str_ne_empty idS hid
  have hn2 := escapeForAppleScript_str_ne_empty nameS hname
  rw [generateAppleScript_both_task (JsStrOpt.str idS) (JsStrOpt.str nameS) hid2 hn2]
  rfl

set_option maxRecDepth 16384 in
/-- Witness for C4 at the concrete request with id x and name y. -/
theorem generateAppleScript_id_before_name_witness :
    ("x" : String) ≠ "" ∧ ("y" : String) ≠ ""
    ∧ (∃ e en : String,
        e = escapeForAppleScript (JsStrOpt.str "x")
        ∧ en = escapeForAppleScript (JsStrOpt.str "y")
        ∧ generateAppleScript ⟨JsStrOpt.str "x", JsStrOpt.str "y", ItemType.task⟩
            = scriptHeader
                ++ (idTaskFlatPre ++ e ++ idTaskInboxMid ++ e ++ idTaskPost)
                ++ (nameTaskGuardPre ++ en ++ nameTaskGuardMid ++ en ++ nameTaskGuardPost)
                ++ scriptFooter
        ∧ strContainsSub (scriptHeader ++ idTaskFlatPre) "where name" = false
        ∧ strContainsSub idTaskInboxMid "where name" = false
        ∧ strContainsSub idTaskPost "where name" = false
        ∧ strContainsSub idTaskFlatPre "first flattened task where id = " = true
        ∧ strContainsSub idTaskInboxMid "first inbox task where id = " = true
        ∧ strContainsSub nameTaskGuardPre "if foundItem is missing value then" = true
        ∧ strContainsSub nameTaskGuardMid "if foundItem is missing value then" = true) :=
  ⟨by decide, by decide, generateAppleScript_id_before_name "x" "y" (by decide) (by decide)⟩

/-- C1 counterexample: for the request with item type task and neither id
nor name, `removeItem` does hand a command line to the execution
collaborator — the call trace is the nonempty list holding the `osascript`
invocation of the canonical invalid-request script — contradicting the
claim that no external process is spawned for the malformed request. -/
theorem removeItem_invalid_request_counterexample :
    (removeItem ⟨JsStrOpt.undef, JsStrOpt.undef, ItemType.task⟩ execCanonicalInvalid).2
      = [osascriptCmd invalidRequestScript]
    ∧ [osascriptCmd invalidRequestScript] ≠ ([] : List String) := by
  constructor
  · rfl
  · simp

/-- C1 amended: for the request with item type task and neither id nor
name, `generateAppleScript` returns the canonical invalid-request script;
`removeItem` still invokes the execution collaborator with that script,
and resolves to success false with error "Either id or name must be
provided" when the collaborator executes the script and returns its
output. -/
theorem removeItem_invalid_request_amended :
    generateAppleScript ⟨JsStrOpt.undef, JsStrOpt.undef, ItemType.task⟩ = invalidRequestScript
    ∧ ∀ (exec : String → Except (Option String) ExecOk) (r : ExecOk),
        exec (osascriptCmd invalidRequestScript) = Except.ok r →
        r.stdout = canonicalInvalidStdout →
        removeItem ⟨JsStrOpt.undef, JsStrOpt.undef, ItemType.task⟩ exec
          = (⟨some (Json.bool false), none, none,
              some (Json.str "Either id or name must be provided")⟩,
             [osascriptCmd invalidRequestScript]) := by
  refine ⟨rfl, ?_⟩
  intro exec r h1 h2
  unfold removeItem
  rw [show generateAppleScript ⟨JsStrOpt.undef, JsStrOpt.undef, ItemType.task⟩
      = invalidRequestScript from rfl, h1]
  show (parseResult r.stdout, [osascriptCmd invalidRequestScript]) = _
  rw [h2]
  rfl

/-- Witness for C1 (amended) with the collaborator that faithfully
executes the canonical script. -/
theorem removeItem_invalid_request_amended_witness :
    removeItem ⟨JsStrOpt.undef, JsStrOpt.undef, ItemType.task⟩ execCanonicalInvalid
      = (⟨some (Json.bool false), none, none,
          some (Json.str "Either id or name must be provided")⟩,
         [osascriptCmd invalidRequestScript]) :=
  removeItem_invalid_request_amended.2 execCanonicalInvalid ⟨canonicalInvalidStdout, ""⟩ rfl rfl

/-- C2 counterexample: a collaborator stdout consisting only of a success
field, namely the JSON object with success false and nothing else, yields
an outcome with success false but no error — the exactly-one-of invariant
fails for this possible stdout. -/
theorem removeItem_outcome_invariant_counterexample :
    ¬ outcomeInvariant
        (removeItem ⟨JsStrOpt.str "abc", JsStrOpt.undef, ItemType.project⟩
          execSuccessFalseOnly).1 := by
  intro hinv
  have hs : (removeItem ⟨JsStrOpt.str "abc", JsStrOpt.undef, ItemType.project⟩
      execSuccessFalseOnly).1.success = some (Json.bool false) := rfl
  obtain ⟨⟨s0, hs0⟩, -, -⟩ := hinv.2 hs
  have hh : (removeItem ⟨JsStrOpt.str "abc", JsStrOpt.undef, ItemType.project⟩
      execSuccessFalseOnly).1.error = none := rfl
  rw [hh] at hs0
  exact Option.noConfusion hs0

/-- C2 amended: every outcome produced without a successfully parsed
non-null stdout payload (collaborator failure, unparseable stdout, JSON
null) satisfies the exactly-one-of invariant; when stdout parses as a
non-null JSON value, the four fields are copied into the outcome directly
from the payload, so the outcome satisfies the invariant exactly when the
payload is well-shaped. -/
theorem removeItem_outcome_invariant_amended (params : RemoveItemParams)
    (exec : String → Except (Option String) ExecOk) :
    outcomeInvariant (removeItem params exec).1
    ∨ ∃ (r : ExecOk) (j : Json),
        exec (osascriptCmd (generateAppleScript params)) = Except.ok r
        ∧ jsonParse r.stdout = some j
        ∧ (removeItem params exec).1
            = ⟨getField j "success", getField j "id", getField j "name",
               getField j "error"⟩ := by
  cases hx : exec (osascriptCmd (generateAppleScript params)) with
  | error m =>
    left
    rw [removeItem_fst_error params exec m hx]
    constructor
    · intro habs
      simp at habs
    · intro _
      exact ⟨⟨errMessageOr m, rfl⟩, rfl, rfl⟩
  | ok r =>
    have hfst := removeItem_fst_ok params exec r hx
    cases hp : jsonParse r.stdout with
    | none =>
      left
      rw [hfst, parseResult_eq_none r.stdout hp]
      constructor
      · intro habs
        simp at habs
      · intro _
        exact ⟨⟨_, rfl⟩, rfl, rfl⟩
    | some j =>
      cases j with
      | null =>
        left
        rw [hfst, parseResult_eq_null r.stdout hp]
        constructor
        · intro habs
          simp at habs
        · intro _
          exact ⟨⟨_, rfl⟩, rfl, rfl⟩
      | bool b =>
        refine Or.inr ⟨r, Json.bool b, rfl, hp, ?_⟩
        rw [hfst]
        unfold parseResult
        rw [hp]
      | num s =>
        refine Or.inr ⟨r, Json.num s, rfl, hp, ?_⟩
        rw [hfst]
        unfold parseResult
        rw [hp]
      | str s =>
        refine Or.inr ⟨r, Json.str s, rfl, hp, ?_⟩
        rw [hfst]
        unfold parseResult
        rw [hp]
      | arr xs =>
        refine Or.inr ⟨r, Json.arr xs, rfl, hp, ?_⟩
        rw [hfst]
        unfold parseResult
        rw [hp]
      | obj fs =>
        refine Or.inr ⟨r, Json.obj fs, rfl, hp, ?_⟩
        rw [hfst]
        unfold parseResult
        rw [hp]

/-- C5: a collaborator failure never escapes `removeItem` (the embedding
is a total function into outcomes): the rejection is mapped to success
false with the failure's message, or the generic fallback
"Unknown error in removeItem" when no usable message is present. -/
theorem removeItem_collaborator_failure (params : RemoveItemParams)
    (exec : String → Except (Option String) ExecOk) (m : Option String)
    (h : exec (osascriptCmd (generateAppleScript params)) = Except.error m) :
    removeItem params exec
      = (⟨some (Json.bool false), none, none, some (Json.str (errMessageOr m))⟩,
         [osascriptCmd (generateAppleScript params)]) := by
  unfold removeItem
  rw [h]

/-- Witness for C5 with a collaborator whose invocation fails carrying a
message. -/
theorem removeItem_collaborator_failure_witness :
    removeItem ⟨JsStrOpt.str "abc", JsStrOpt.undef, ItemType.task⟩ execSpawnFail
      = (⟨some (Json.bool false), none, none, some (Json.str "spawn osascript ENOENT")⟩,
         [osascriptCmd (generateAppleScript ⟨JsStrOpt.str "abc", JsStrOpt.undef,
            ItemType.task⟩)]) :=
  removeItem_collaborator_failure _ execSpawnFail (some "spawn osascript ENOENT") rfl

/-- C6: when the collaborator's stdout is not valid JSON the outcome is
success false with error "Failed to parse result: " followed by the raw
stdout; when stdout parses as a JSON object, the fields success, id, name
and error are copied directly from the object's members into the
outcome. -/
theorem removeItem_parse_mapping :
    (∀ (params : RemoveItemParams) (exec : String → Except (Option String) ExecOk)
       (r : ExecOk),
       exec (osascriptCmd (generateAppleScript params)) = Except.ok r →
       jsonParse r.stdout = none →
       (removeItem params exec).1
         = ⟨some (Json.bool false), none, none,
            some (Json.str ("Failed to parse result: " ++ r.stdout))⟩)
    ∧ (∀ (params : RemoveItemParams) (exec : String → Except (Option String) ExecOk)
         (r : ExecOk) (fs : List (String × Json)),
       exec (osascriptCmd (generateAppleScript params)) = Except.ok r →
       jsonParse r.stdout = some (Json.obj fs) →
       (removeItem params exec).1
         = ⟨lookupField fs "success", lookupField fs "id", lookupField fs "name",
            lookupField fs "error"⟩) := by
  constructor
  · intro params exec r h1 h2
    unfold removeItem
    rw [h1]
    show parseResult r.stdout = _
    unfold parseResult
    rw [h2]
  · intro params exec r fs h1 h2
    unfold removeItem
    rw [h1]
    show parseResult r.stdout = _
    unfold parseResult
    rw [h2]
    rfl

/-- Witness for C6: a non-JSON stdout and a well-shaped object stdout. -/
theorem removeItem_parse_mapping_witness :
    (removeItem ⟨JsStrOpt.str "abc", JsStrOpt.undef, ItemType.task⟩ execNotJson).1
      = ⟨some (Json.bool false), none, none,
         some (Json.str "Failed to parse result: Error: syntax error")⟩
    ∧ (removeItem ⟨JsStrOpt.str "abc123", JsStrOpt.undef, ItemType.project⟩ execParsedObj).1
      = ⟨lookupField parsedObjFields "success", lookupField parsedObjFields "id",
         lookupField parsedObjFields "name", lookupField parsedObjFields "error"⟩ :=
  ⟨removeItem_parse_mapping.1 _ execNotJson ⟨"Error: syntax error", ""⟩ rfl rfl,
   removeItem_parse_mapping.2 _ execParsedObj
     ⟨"\x7b\"success\":true,\"id\":\"abc123\",\"name\":\"Q3 Planning\"\x7d", ""⟩
     parsedObjFields rfl rfl⟩

/-- C7: the outcome of `removeItem` is a function of stdout alone: two
collaborators returning the same stdout for the same request but
different stderr streams produce identical outcomes — non-empty stderr
never constitutes failure by itself. -/
theorem removeItem_stderr_irrelevant (params : RemoveItemParams)
    (exec1 exec2 : String → Except (Option String) ExecOk)
    (out err1 err2 : String)
    (h1 : exec1 (osascriptCmd (generateAppleScript params)) = Except.ok ⟨out, err1⟩)
    (h2 : exec2 (osascriptCmd (generateAppleScript params)) = Except.ok ⟨out, err2⟩) :
    (removeItem params exec1).1 = (removeItem params exec2).1 := by
  unfold removeItem
  rw [h1, h2]

/-- Witness for C7: same not-found stdout, one noisy and one empty
stderr. -/
theorem removeItem_stderr_irrelevant_witness :
    (removeItem ⟨JsStrOpt.str "abc", JsStrOpt.undef, ItemType.task⟩ execStderrNoisy).1
      = (removeItem ⟨JsStrOpt.str "abc", JsStrOpt.undef, ItemType.task⟩ execStderrQuiet).1 :=
  removeItem_stderr_irrelevant _ _ _ _ _ _ rfl rfl

end OF
